import Mathlib

/-!
Shallow embedding of the response-decoding and data-normalization core of the
`cyclone` NexusMods API client (`src/request.rs`, `src/api.rs`, `src/err.rs`).

JSON wire values are modelled by the inductive `Json` below (integers as `Int`,
since every numeric field in the client is an integer type on the Rust side).
Serde-derived struct deserializers are modelled as explicit field-lookup
decoders returning `Except String`; custom `Deserialize` impls
(`Category`, `EndorseStatus`) are translated from their visitor code.
HTTP endpoint handlers from `src/api.rs` are modelled as pure functions of the
response status code and body; the two panicking arms of their `match`
(`unimplemented!` for a documented-but-unobserved status, `unreachable!` for an
undocumented status) become explicit result constructors, since the claims
speak about them directly.
-/

namespace Cyclone

/-- Model of a JSON value as produced by `serde_json`.  Numbers are integers
(`Int`); the client never decodes floating point fields. -/
inductive Json where
  | null : Json
  | bool (b : Bool) : Json
  | num (n : Int) : Json
  | str (s : String) : Json
  | arr (elems : List Json) : Json
  | obj (fields : List (String × Json)) : Json

/-- Look up the first field with the given name in a JSON object field list
(serde matches struct fields by key as the map is traversed). -/
def findField : List (String × Json) → String → Option Json
  | [], _ => none
  | (k, v) :: rest, name => if k == name then some v else findField rest name

/-- Access a named field of a JSON object; any other shape, or a missing
field, is a decode error (serde: `invalid type` / `missing field`). -/
def Json.field (j : Json) (name : String) : Except String Json :=
  match j with
  | .obj fs =>
      match findField fs name with
      | some v => .ok v
      | none => .error "missing field"
  | _ => .error "invalid type: expected a map"

/-- Decode a JSON string (serde `String` field). -/
def Json.asStr : Json → Except String String
  | .str s => .ok s
  | _ => .error "invalid type: expected a string"

/-- Decode a JSON boolean (serde `bool` field). -/
def Json.asBool : Json → Except String Bool
  | .bool b => .ok b
  | _ => .error "invalid type: expected a boolean"

/-- Decode a non-negative JSON integer (serde `u64` / `usize` field). -/
def Json.asU64 : Json → Except String Nat
  | .num n => if n < 0 then .error "invalid value: negative integer for u64" else .ok n.toNat
  | _ => .error "invalid type: expected an integer"

/-- Decode a JSON integer (serde `i64`, used by the Unix-epoch timestamp
codec `time::serde::timestamp`). -/
def Json.asI64 : Json → Except String Int
  | .num n => .ok n
  | _ => .error "invalid type: expected an integer"

/-- Decode a list with an element decoder (serde `Vec<T>` field). -/
def decodeList (d : Json → Except String α) : Json → Except String (List α)
  | .arr elems =>
      let rec go : List Json → Except String (List α)
        | [] => .ok []
        | x :: xs => do
            let a ← d x
            let rest ← go xs
            .ok (a :: rest)
      go elems
  | _ => .error "invalid type: expected a sequence"

/-- Decode an optional field (serde `Option<T>`): a missing field or an
explicit `null` decodes to `none`. -/
def Json.optField (j : Json) (name : String) (d : Json → Except String α) :
    Except String (Option α) :=
  match j with
  | .obj fs =>
      match findField fs name with
      | some .null => .ok none
      | some v => do .ok (some (← d v))
      | none => .ok none
  | _ => .error "invalid type: expected a map"

/-- The ambiguous parent-category reference from `src/request.rs`: either
a parent category id or no parent (wire value `false`). -/
inductive Category where
  | Category (n : Nat) : Category
  | None : Category
deriving DecidableEq

/-- Translation of `impl Deserialize for Category` (`src/request.rs`): the
visitor accepts a non-negative integer (`visit_u64`, or `visit_i64` on a
non-negative value) as `Category::Category`, rejects negative integers,
accepts the boolean `false` as `Category::None`, rejects `true`, and rejects
every other JSON shape through the default visitor methods
(expecting "a number or false"). -/
def Category.deserialize : Json → Except String Cyclone.Category
  | .num n =>
      if n < 0 then .error "negative number not allowed"
      else .ok (Category.Category n.toNat)
  | .bool b =>
      if b then .error "true not allowed"
      else .ok Category.None
  | _ => .error "invalid type: expected a number or false"

/-- Translation of `impl Serialize for Category` (`src/request.rs`):
`Category(n)` serializes as the integer `n`, `None` as the boolean
`false`. -/
def Category.serialize : Cyclone.Category → Json
  | .Category n => .num (n : Int)
  | .None => .bool false

/-- Endorsement status from `src/request.rs`: the externally tagged variant
`Endorsed` plus a fallback unit variant `NotEndorsed` carrying
`#[serde(untagged)]`. -/
inductive EndorseStatus where
  | Endorsed : EndorseStatus
  | NotEndorsed : EndorseStatus
deriving DecidableEq

/-- Translation of the serde-derived `Deserialize` impl for `EndorseStatus`.
serde_derive expands the variant-level `untagged` attribute as: first try the
externally tagged variants (the string `"Endorsed"`, or the single-entry map
form with key `"Endorsed"` and unit value), then try each untagged variant in
declaration order on the buffered content.  `NotEndorsed` is an untagged UNIT
variant, which serde deserializes through its `UntaggedUnitVisitor` — a
visitor implementing only `visit_unit` and `visit_none` — so the fallback
matches exactly the JSON value `null`; every other value is rejected with
"data did not match any variant of untagged enum EndorseStatus". -/
def EndorseStatus.deserialize : Json → Except String EndorseStatus
  | .str "Endorsed" => .ok EndorseStatus.Endorsed
  | .obj [("Endorsed", .null)] => .ok EndorseStatus.Endorsed
  | .null => .ok EndorseStatus.NotEndorsed
  | _ => .error "data did not match any variant of untagged enum EndorseStatus"

/-- The `Validate` user-identity record (`src/request.rs`).  `Url` fields are
modelled as their string form (URL parsing lives in the external `url`
crate). -/
structure Validate where
  user_id : Nat
  key : String
  name : String
  is_premium_q : Bool
  is_supporter_q : Bool
  email : String
  profile_url : String
  is_premium : Bool
  is_supporter : Bool
deriving DecidableEq

/-- Translation of `Validate::is_premium` (the method; renamed because Lean
does not allow a method to share the name of the `is_premium` field). -/
def Validate.isPremium (v : Validate) : Bool :=
  v.is_premium_q && v.is_premium

/-- Translation of `Validate::is_supporter`. -/
def Validate.isSupporter (v : Validate) : Bool :=
  v.is_supporter_q && v.is_supporter

/-- Field access that also accepts a serde `alias` name. -/
def Json.fieldAlias (j : Json) (name alt : String) : Except String Json :=
  match j.field name with
  | .ok v => .ok v
  | .error _ => j.field alt

/-- Serde-derived decoder for `Validate`: every field is required; the two
question-mark flags come from `#[serde(alias = "is_premium?")]` and
`#[serde(alias = "is_supporter?")]`. -/
def decodeValidate (j : Json) : Except String Validate := do
  let user_id ← (← j.field "user_id").asU64
  let key ← (← j.field "key").asStr
  let name ← (← j.field "name").asStr
  let is_premium_q ← (← j.fieldAlias "is_premium_q" "is_premium?").asBool
  let is_supporter_q ← (← j.fieldAlias "is_supporter_q" "is_supporter?").asBool
  let email ← (← j.field "email").asStr
  let profile_url ← (← j.field "profile_url").asStr
  let is_premium ← (← j.field "is_premium").asBool
  let is_supporter ← (← j.field "is_supporter").asBool
  .ok ⟨user_id, key, name, is_premium_q, is_supporter_q, email, profile_url,
       is_premium, is_supporter⟩

/-- Error body for an invalid API key (`src/err.rs`). -/
structure InvalidAPIKeyError where
  message : String
deriving DecidableEq

/-- Error body for a mod that was not found (`src/err.rs`). -/
structure ModNotFoundError where
  message : String
deriving DecidableEq

/-- Serde-derived decoder for `InvalidAPIKeyError`. -/
def decodeInvalidAPIKeyError (j : Json) : Except String InvalidAPIKeyError := do
  .ok ⟨← (← j.field "message").asStr⟩

/-- Serde-derived decoder for `ModNotFoundError`. -/
def decodeModNotFoundError (j : Json) : Except String ModNotFoundError := do
  .ok ⟨← (← j.field "message").asStr⟩

/-- A checked mod id (`src/request.rs`), a thin wrapper around `u64`. -/
structure ModId where
  id : Nat
deriving DecidableEq

/-- One raw tracked-mod entry: a mod id paired with a game domain slug. -/
structure ModEntry where
  mod_id : ModId
  domain_name : String
deriving DecidableEq

/-- The raw ordered tracked-mods list (`src/request.rs`). -/
structure TrackedModsRaw where
  mods : List ModEntry

/-- Aggregated view: game domain name to the ordered list of tracked mod ids.
The Rust `HashMap<String, Vec<ModId>>` is modelled as a function
`String → Option (List ModId)` (absent key ↦ `none`), which is the observable
interface of `TrackedMods::get_game`. -/
structure TrackedMods where
  mods : String → Option (List ModId)

/-- One iteration of the grouping loop in
`impl From<TrackedModsRaw> for TrackedMods`:
`mods.entry(entry.domain_name).or_default().push(entry.mod_id)`. -/
def insertEntry (m : String → Option (List ModId)) (e : ModEntry) :
    String → Option (List ModId) :=
  fun k =>
    if k = e.domain_name then some ((m e.domain_name).getD [] ++ [e.mod_id])
    else m k

/-- Translation of `impl From<TrackedModsRaw> for TrackedMods`
(`src/request.rs`). -/
def TrackedMods.fromRaw (raw : TrackedModsRaw) : TrackedMods :=
  ⟨raw.mods.foldl insertEntry (fun _ => Option.none)⟩

/-- Translation of `TrackedMods::get_game`. -/
def TrackedMods.get_game (t : TrackedMods) (name : String) : Option (List ModId) :=
  t.mods name

/-- One game category (`src/request.rs`). -/
structure GameCategory where
  category_id : Nat
  name : String
  parent_category : Category
deriving DecidableEq

/-- Game metadata record (`src/request.rs`).  Timestamp fields carry the
decoded Unix epoch value; URL fields their string form. -/
structure GameId where
  id : Nat
  name : String
  forum_url : String
  nexusmods_url : String
  genre : String
  file_count : Nat
  domain_name : String
  approved_date : Int
  file_views : Nat
  authors : Nat
  file_endorsements : Nat
  mods : Nat
  categories : List GameCategory
deriving DecidableEq

/-- Serde-derived decoder for `GameCategory`; the parent reference uses the
custom `Category` codec. -/
def decodeGameCategory (j : Json) : Except String GameCategory := do
  let category_id ← (← j.field "category_id").asU64
  let name ← (← j.field "name").asStr
  let parent_category ← Category.deserialize (← j.field "parent_category")
  .ok ⟨category_id, name, parent_category⟩

/-- Serde-derived decoder for `GameId` (`#[serde(with = "time::serde::timestamp")]`
on `approved_date` decodes a Unix epoch integer). -/
def decodeGameId (j : Json) : Except String GameId := do
  let id ← (← j.field "id").asU64
  let name ← (← j.field "name").asStr
  let forum_url ← (← j.field "forum_url").asStr
  let nexusmods_url ← (← j.field "nexusmods_url").asStr
  let genre ← (← j.field "genre").asStr
  let file_count ← (← j.field "file_count").asU64
  let domain_name ← (← j.field "domain_name").asStr
  let approved_date ← (← j.field "approved_date").asI64
  let file_views ← (← j.field "file_views").asU64
  let authors ← (← j.field "authors").asU64
  let file_endorsements ← (← j.field "file_endorsements").asU64
  let mods ← (← j.field "mods").asU64
  let categories ← decodeList decodeGameCategory (← j.field "categories")
  .ok ⟨id, name, forum_url, nexusmods_url, genre, file_count, domain_name,
       approved_date, file_views, authors, file_endorsements, mods, categories⟩

/-- Translation of `GameId::trace_parent_category` (`src/request.rs`): find
the first category in list order whose `category_id` equals the parent id;
a `Category::None` parent matches nothing. -/
def GameId.trace_parent_category (g : GameId) (category : GameCategory) :
    Option GameCategory :=
  g.categories.find? (fun cat =>
    match category.parent_category with
    | .Category n => n == cat.category_id
    | .None => false)

/-- The six fixed file-category variants (`src/request.rs`). -/
inductive CategoryName where
  | Main : CategoryName
  | Update : CategoryName
  | Optional : CategoryName
  | OldVersion : CategoryName
  | Miscellaneous : CategoryName
  | Archived : CategoryName
deriving DecidableEq

/-- Serde-derived decoder for `CategoryName`
(`#[serde(rename_all = "SCREAMING_SNAKE_CASE")]`). -/
def CategoryName.deserialize : Json → Except String CategoryName
  | .str "MAIN" => .ok CategoryName.Main
  | .str "UPDATE" => .ok CategoryName.Update
  | .str "OPTIONAL" => .ok CategoryName.Optional
  | .str "OLD_VERSION" => .ok CategoryName.OldVersion
  | .str "MISCELLANEOUS" => .ok CategoryName.Miscellaneous
  | .str "ARCHIVED" => .ok CategoryName.Archived
  | _ => .error "unknown variant for enum CategoryName"

/-- One downloadable file of a mod (`src/request.rs`).  `uploaded_timestamp`
is the decoded Unix epoch; `uploaded_time` keeps the ISO-8601 wire string
(its grammar lives in the external `time` crate); URLs are strings. -/
structure ModFile where
  id : List Nat
  uid : Nat
  file_id : Nat
  name : String
  version : String
  category_id : Nat
  category_name : CategoryName
  is_primary : Bool
  size : Nat
  file_name : String
  uploaded_timestamp : Int
  uploaded_time : String
  mod_version : String
  external_virus_scan_url : Option String
  description : Option String
  size_kb : Nat
  size_in_bytes : Nat
  changelog_html : Option String
  content_preview_link : String
deriving DecidableEq

/-- Serde-derived decoder for `ModFile`.  The `Option` fields decode a
missing key or `null` to `none`, per serde defaults. -/
def decodeModFile (j : Json) : Except String ModFile := do
  let id ← decodeList Json.asU64 (← j.field "id")
  let uid ← (← j.field "uid").asU64
  let file_id ← (← j.field "file_id").asU64
  let name ← (← j.field "name").asStr
  let version ← (← j.field "version").asStr
  let category_id ← (← j.field "category_id").asU64
  let category_name ← CategoryName.deserialize (← j.field "category_name")
  let is_primary ← (← j.field "is_primary").asBool
  let size ← (← j.field "size").asU64
  let file_name ← (← j.field "file_name").asStr
  let uploaded_timestamp ← (← j.field "uploaded_timestamp").asI64
  let uploaded_time ← (← j.field "uploaded_time").asStr
  let mod_version ← (← j.field "mod_version").asStr
  let external_virus_scan_url ← j.optField "external_virus_scan_url" Json.asStr
  let description ← j.optField "description" Json.asStr
  let size_kb ← (← j.field "size_kb").asU64
  let size_in_bytes ← (← j.field "size_in_bytes").asU64
  let changelog_html ← j.optField "changelog_html" Json.asStr
  let content_preview_link ← (← j.field "content_preview_link").asStr
  .ok ⟨id, uid, file_id, name, version, category_id, category_name, is_primary,
       size, file_name, uploaded_timestamp, uploaded_time, mod_version,
       external_virus_scan_url, description, size_kb, size_in_bytes,
       changelog_html, content_preview_link⟩

/-- A file-replacement record (`src/request.rs`). -/
structure FileUpdate where
  old_file_id : Nat
  new_file_id : Nat
  old_file_name : String
  new_file_name : String
  uploaded_timestamp : Int
  uploaded_time : String
deriving DecidableEq

/-- Serde-derived decoder for `FileUpdate`. -/
def decodeFileUpdate (j : Json) : Except String FileUpdate := do
  let old_file_id ← (← j.field "old_file_id").asU64
  let new_file_id ← (← j.field "new_file_id").asU64
  let old_file_name ← (← j.field "old_file_name").asStr
  let new_file_name ← (← j.field "new_file_name").asStr
  let uploaded_timestamp ← (← j.field "uploaded_timestamp").asI64
  let uploaded_time ← (← j.field "uploaded_time").asStr
  .ok ⟨old_file_id, new_file_id, old_file_name, new_file_name,
       uploaded_timestamp, uploaded_time⟩

/-- The file list of a mod together with its file-update list
(`src/request.rs`). -/
structure ModFiles where
  files : List ModFile
  file_updates : List FileUpdate
deriving DecidableEq

/-- Serde-derived decoder for `ModFiles`. -/
def decodeModFiles (j : Json) : Except String ModFiles := do
  let files ← decodeList decodeModFile (← j.field "files")
  let file_updates ← decodeList decodeFileUpdate (← j.field "file_updates")
  .ok ⟨files, file_updates⟩

/-- One iteration of the dedup loop in `ModFiles::dedup` (`src/request.rs`):
`x` is skipped when some already-kept representative `y` satisfies
`same x y`, otherwise pushed. -/
def dedupStep (same : α → α → Bool) (out : List α) (x : α) : List α :=
  if out.any (fun y => same x y) then out else out ++ [x]

/-- The dedup loop over an arbitrary element type (the algorithm in the
source never inspects the `ModFile` fields, only the predicate). -/
def dedupCore (same : α → α → Bool) (l : List α) : List α :=
  l.foldl (dedupStep same) []

/-- Translation of `ModFiles::dedup`: walk `self.files` in order, keeping a
file unless it is `same` as a representative kept earlier. -/
def ModFiles.dedup (mf : ModFiles) (same : ModFile → ModFile → Bool) :
    List ModFile :=
  dedupCore same mf.files

/-- Outcome of an endpoint call: the Rust `Result`, extended with the two
panicking arms of the status `match` in `src/api.rs` — `unimplemented!` for
the documented-but-never-observed 422 status and `unreachable!` for any
status outside the documented set (a protocol-contract violation). -/
inductive ApiResult (α ε : Type) where
  | ok (a : α) : ApiResult α ε
  | err (e : ε) : ApiResult α ε
  | panicUnimplemented : ApiResult α ε
  | panicUnreachable : ApiResult α ε

/-- Error union of `Api::validate` and the other user endpoints
(`src/err.rs`).  The payloads of transport and JSON errors are kept as
message strings. -/
inductive ValidateError where
  | Reqwest (msg : String) : ValidateError
  | SerdeJson (msg : String) : ValidateError
  | InvalidAPIKey (e : InvalidAPIKeyError) : ValidateError
deriving DecidableEq

/-- Success outcome of `Api::track_mod` (`src/err.rs`). -/
inductive PostModStatus where
  | SuccessfullyTracked (id : ModId) : PostModStatus
  | AlreadyTracking (id : ModId) : PostModStatus
deriving DecidableEq

/-- Error union of `Api::track_mod` (`src/err.rs`). -/
inductive TrackModError where
  | Reqwest (msg : String) : TrackModError
  | SerdeJson (msg : String) : TrackModError
  | InvalidAPIKey (e : InvalidAPIKeyError) : TrackModError
  | ModNotFound (e : ModNotFoundError) : TrackModError
deriving DecidableEq

/-- Error body for an invalid game (`src/err.rs`). -/
structure InvalidGame where
  code : Nat
  message : String
deriving DecidableEq

/-- Error union of the game and mod-file endpoints (`src/err.rs`). -/
inductive GameModError where
  | Reqwest (msg : String) : GameModError
  | SerdeJson (msg : String) : GameModError
  | InvalidAPIKey (e : InvalidAPIKeyError) : GameModError
  | InvalidGameID (e : InvalidGame) : GameModError
deriving DecidableEq

/-- Translation of the status match in `Api::validate` (`src/api.rs`).
A failure to decode the body surfaces through the `Reqwest` error variant,
matching the Rust code where `response.json()` yields a `reqwest::Error`
that the `?` operator converts via `From`. -/
def Api.validate (status : Nat) (body : Json) : ApiResult Validate ValidateError :=
  if status = 200 then
    match decodeValidate body with
    | .ok v => .ok v
    | .error e => .err (.Reqwest e)
  else if status = 401 then
    match decodeInvalidAPIKeyError body with
    | .ok e => .err (.InvalidAPIKey e)
    | .error m => .err (.Reqwest m)
  else if status = 422 then .panicUnimplemented
  else .panicUnreachable

/-- Translation of the status match in `Api::track_mod` (`src/api.rs`);
`id` is the caller-supplied `u64` that both success arms wrap via
`ModId::from_u64`. -/
def Api.track_mod (id : Nat) (status : Nat) (body : Json) :
    ApiResult PostModStatus TrackModError :=
  if status = 200 then .ok (.AlreadyTracking ⟨id⟩)
  else if status = 201 then .ok (.SuccessfullyTracked ⟨id⟩)
  else if status = 401 then
    match decodeInvalidAPIKeyError body with
    | .ok e => .err (.InvalidAPIKey e)
    | .error m => .err (.Reqwest m)
  else if status = 404 then
    match decodeModNotFoundError body with
    | .ok e => .err (.ModNotFound e)
    | .error m => .err (.Reqwest m)
  else .panicUnreachable

/-- The status match shared verbatim by `Api::games`, `Api::game`,
`Api::mod_files` and `Api::mod_file` (`src/api.rs`): 200 decodes the success
body, 404 decodes the INVALID-API-KEY error body (`err::InvalidAPIKeyError`),
422 is the explicit `unimplemented!` arm, and anything else is
`unreachable!`. -/
def gamesFamilyMatch (decodeSuccess : Json → Except String α)
    (status : Nat) (body : Json) : ApiResult α GameModError :=
  if status = 200 then
    match decodeSuccess body with
    | .ok v => .ok v
    | .error e => .err (.Reqwest e)
  else if status = 404 then
    match decodeInvalidAPIKeyError body with
    | .ok e => .err (.InvalidAPIKey e)
    | .error m => .err (.Reqwest m)
  else if status = 422 then .panicUnimplemented
  else .panicUnreachable

/-- Translation of the status match in `Api::games`. -/
def Api.games : Nat → Json → ApiResult (List GameId) GameModError :=
  gamesFamilyMatch (decodeList decodeGameId)

/-- Translation of the status match in `Api::game`. -/
def Api.game : Nat → Json → ApiResult GameId GameModError :=
  gamesFamilyMatch decodeGameId

/-- Translation of the status match in `Api::mod_files`. -/
def Api.mod_files : Nat → Json → ApiResult ModFiles GameModError :=
  gamesFamilyMatch decodeModFiles

/-- Translation of the status match in `Api::mod_file`. -/
def Api.mod_file : Nat → Json → ApiResult ModFile GameModError :=
  gamesFamilyMatch decodeModFile

/-- Modelled from the spec wording for `ModFiles::dedup` ("returns the first
representative of each equivalence class in original order"): keep the head,
drop every later element of its class, recurse on the rest.  Used as the
specification side of the refinement proof for the dedup loop. -/
def firstReps (same : α → α → Bool) : List α → List α
  | [] => []
  | x :: xs => x :: firstReps same (xs.filter (fun y => !(same x y)))
termination_by l => l.length
decreasing_by
  simp only [List.length_cons]
  exact Nat.lt_succ_of_le (List.length_filter_le _ _)

/-- Concrete well-formed wire body for the validate endpoint, used to
exercise the decoders on a closed input. -/
def validateBody : Json :=
  Json.obj [("user_id", .num 123), ("key", .str "k0"), ("name", .str "dragonborn"),
            ("is_premium?", .bool true), ("is_supporter?", .bool true),
            ("email", .str "d@example.com"), ("profile_url", .str "https://a.example"),
            ("is_premium", .bool true), ("is_supporter", .bool false)]

/-- The decoded form of `validateBody`. -/
def validateValue : Validate :=
  ⟨123, "k0", "dragonborn", true, true, "d@example.com", "https://a.example",
   true, false⟩

/-- Concrete well-formed wire body for a single game, with one category whose
parent is the wire value `false`. -/
def gameBody : Json :=
  Json.obj [("id", .num 1704), ("name", .str "Skyrim Special Edition"),
            ("forum_url", .str "https://f.example"),
            ("nexusmods_url", .str "https://n.example"),
            ("genre", .str "RPG"), ("file_count", .num 10),
            ("domain_name", .str "skyrimspecialedition"),
            ("approved_date", .num 1455368400), ("file_views", .num 5),
            ("authors", .num 2), ("file_endorsements", .num 3), ("mods", .num 4),
            ("categories", .arr [Json.obj [("category_id", .num 1),
                                           ("name", .str "Skyrim"),
                                           ("parent_category", .bool false)]])]

/-- The decoded form of `gameBody`. -/
def gameValue : GameId :=
  ⟨1704, "Skyrim Special Edition", "https://f.example", "https://n.example",
   "RPG", 10, "skyrimspecialedition", 1455368400, 5, 2, 3, 4,
   [⟨1, "Skyrim", Category.None⟩]⟩

/-- Concrete well-formed wire body for a single mod file. -/
def modFileBody : Json :=
  Json.obj [("id", .arr [.num 42, .num 1704]), ("uid", .num 7), ("file_id", .num 42),
            ("name", .str "Main File"), ("version", .str "1.0"),
            ("category_id", .num 1), ("category_name", .str "MAIN"),
            ("is_primary", .bool true), ("size", .num 100),
            ("file_name", .str "main.zip"), ("uploaded_timestamp", .num 1609459200),
            ("uploaded_time", .str "2021-01-01T00:00:00Z"),
            ("mod_version", .str "1.0"), ("external_virus_scan_url", .null),
            ("description", .str "d"), ("size_kb", .num 100),
            ("size_in_bytes", .num 102400), ("changelog_html", .null),
            ("content_preview_link", .str "https://p.example")]

/-- The decoded form of `modFileBody`. -/
def modFileValue : ModFile :=
  ⟨[42, 1704], 7, 42, "Main File", "1.0", 1, CategoryName.Main, true, 100,
   "main.zip", 1609459200, "2021-01-01T00:00:00Z", "1.0", none, some "d",
   100, 102400, none, "https://p.example"⟩

/-- First file of the dedup example (same `file_id` as `fileC`). -/
def fileA : ModFile :=
  ⟨[1], 11, 1, "A", "1.0", 1, CategoryName.Main, true, 1, "a.zip", 0, "t", "1.0",
   none, none, 1, 1024, none, "https://p.example"⟩

/-- Second file of the dedup example (unique `file_id`). -/
def fileB : ModFile :=
  ⟨[2], 12, 2, "B", "1.0", 1, CategoryName.Main, false, 2, "b.zip", 0, "t", "1.0",
   none, none, 2, 2048, none, "https://p.example"⟩

/-- Third file of the dedup example (same `file_id` as `fileA`). -/
def fileC : ModFile :=
  ⟨[3], 13, 1, "C", "1.0", 1, CategoryName.Main, false, 3, "c.zip", 0, "t", "1.0",
   none, none, 3, 3072, none, "https://p.example"⟩

/-- The caller-supplied equivalence predicate of the dedup example: two files
are the same when their `file_id` fields agree. -/
def sameFile (a b : ModFile) : Bool :=
  a.file_id == b.file_id

/-- Concrete game for the parent-tracing example: a root category, a child
pointing at it, and a category with a dangling parent id. -/
def traceGame : GameId :=
  ⟨100, "G", "https://f.example", "https://n.example", "RPG", 0, "g", 0, 0, 0, 0, 0,
   [⟨1, "root", Category.None⟩, ⟨2, "child", Category.Category 1⟩,
    ⟨3, "dangling", Category.Category 7⟩]⟩

/-- C1: the ambiguous-parent codec decodes every non-negative integer `n` to
the "has parent n" variant `Category::Category(n)` and the boolean `false` to
the "no parent" variant `Category::None`; decoding the boolean `true` or any
negative integer returns a decode error. -/
theorem c1_category_decode :
    (∀ n : Nat, Category.deserialize (Json.num (n : Int))
        = .ok (Category.Category n))
    ∧ Category.deserialize (Json.bool false) = .ok Category.None
    ∧ Category.deserialize (Json.bool true) = .error "true not allowed"
    ∧ (∀ n : Int, n < 0 →
        Category.deserialize (Json.num n) = .error "negative number not allowed") := by
  refine ⟨fun n => ?_, rfl, rfl, fun n hn => ?_⟩
  · simp [Category.deserialize]
  · simp [Category.deserialize, hn]

/-- Witness for `c1_category_decode`: the codec at the concrete integers `7`
and `-3`. -/
theorem c1_category_decode_witness :
    Category.deserialize (Json.num ((7 : Nat) : Int)) = .ok (Category.Category 7)
    ∧ Category.deserialize (Json.num (-3)) = .error "negative number not allowed" :=
  ⟨c1_category_decode.1 7, c1_category_decode.2.2.2 (-3) (by decide)⟩

/-- C5: encoding the decoded "has parent n" value reproduces the integer `n`,
encoding "no parent" reproduces the boolean `false`, and decode-then-encode
is the identity on every wire value the codec accepts. -/
theorem c5_category_roundtrip :
    (∀ n : Nat, Category.serialize (Category.Category n) = Json.num (n : Int))
    ∧ Category.serialize Category.None = Json.bool false
    ∧ (∀ (v : Json) (c : Category), Category.deserialize v = .ok c →
        Category.serialize c = v) := by
  refine ⟨fun n => rfl, rfl, fun v c h => ?_⟩
  cases v with
  | num n =>
      by_cases hn : n < 0
      · simp [Category.deserialize, hn] at h
      · simp [Category.deserialize, hn] at h
        subst h
        simp [Category.serialize, Int.toNat_of_nonneg (not_lt.mp hn)]
  | bool b =>
      cases b
      · simp [Category.deserialize] at h
        subst h
        rfl
      · simp [Category.deserialize] at h
  | null => simp [Category.deserialize] at h
  | str s => simp [Category.deserialize] at h
  | arr xs => simp [Category.deserialize] at h
  | obj fs => simp [Category.deserialize] at h

/-- Witness for `c5_category_roundtrip`: decode-then-encode at the accepted
wire values `7` and `false`. -/
theorem c5_category_roundtrip_witness :
    Category.serialize (Category.Category 7) = Json.num ((7 : Nat) : Int)
    ∧ Category.serialize Category.None = Json.bool false :=
  ⟨c5_category_roundtrip.2.2 (Json.num ((7 : Nat) : Int)) (Category.Category 7)
      (by rfl),
   c5_category_roundtrip.2.2 (Json.bool false) Category.None (by rfl)⟩

/-- C4 evaluation: the endorsement-status deserializer accepts the exact tag
"Endorsed" and (through the untagged unit fallback) the value `null`, but it
REJECTS every other well-formed wire value — in particular the status string
"Abstained", which the upstream API sends for abstained mods, is a decode
error instead of `NotEndorsed`.  The catch-all behaviour the fallback variant
was evidently written for would need `#[serde(other)]`-style tag matching;
an untagged unit variant only matches `null`. -/
theorem c4_endorse_status_decode :
    EndorseStatus.deserialize (Json.str "Endorsed") = .ok EndorseStatus.Endorsed
    ∧ EndorseStatus.deserialize Json.null = .ok EndorseStatus.NotEndorsed
    ∧ EndorseStatus.deserialize (Json.str "Abstained")
        = .error "data did not match any variant of untagged enum EndorseStatus"
    ∧ EndorseStatus.deserialize (Json.str "Undecided")
        = .error "data did not match any variant of untagged enum EndorseStatus"
    ∧ EndorseStatus.deserialize (Json.bool true)
        = .error "data did not match any variant of untagged enum EndorseStatus" := by
  refine ⟨rfl, rfl, rfl, rfl, rfl⟩

/-- C9: the derived premium predicate holds exactly when both the
question-mark premium flag and the plain premium flag are set, and likewise
for the supporter predicate. -/
theorem c9_is_premium_is_supporter (v : Validate) :
    (v.isPremium = true ↔ (v.is_premium_q = true ∧ v.is_premium = true))
    ∧ (v.isSupporter = true ↔ (v.is_supporter_q = true ∧ v.is_supporter = true)) := by
  constructor
  · simp [Validate.isPremium]
  · simp [Validate.isSupporter]

/-- C2: `Api::validate` returns the decoded user identity on a 200 response
with a well-formed body, the `InvalidAPIKey` error carrying the body message
on a 401 response with a message body, the explicit not-yet-observed
unimplemented marker on 422 (never coerced into another outcome), and a
contract violation on every status outside the documented set. -/
theorem c2_validate_status_contract :
    (∀ (body : Json) (v : Validate), decodeValidate body = .ok v →
        Api.validate 200 body = .ok v)
    ∧ (∀ (body : Json) (m : String),
        decodeInvalidAPIKeyError body = .ok ⟨m⟩ →
        Api.validate 401 body = .err (.InvalidAPIKey ⟨m⟩))
    ∧ (∀ body : Json, Api.validate 422 body = .panicUnimplemented)
    ∧ (∀ (s : Nat) (body : Json), s ≠ 200 → s ≠ 401 → s ≠ 422 →
        Api.validate s body = .panicUnreachable) := by
  refine ⟨fun body v h => ?_, fun body m h => ?_, fun body => ?_,
          fun s body h1 h2 h3 => ?_⟩
  · simp [Api.validate, h]
  · simp [Api.validate, h]
  · simp [Api.validate]
  · simp [Api.validate, h1, h2, h3]

/-- Witness for `c2_validate_status_contract`: a concrete 200 response with a
well-formed body decodes to the matching identity, a concrete 401 message
body surfaces as `InvalidAPIKey`, and status 500 is a contract violation. -/
theorem c2_validate_status_contract_witness :
    Api.validate 200 validateBody = .ok validateValue
    ∧ Api.validate 401 (Json.obj [("message", .str "bad key")])
        = .err (.InvalidAPIKey ⟨"bad key"⟩)
    ∧ Api.validate 500 Json.null = .panicUnreachable :=
  ⟨c2_validate_status_contract.1 validateBody validateValue rfl,
   c2_validate_status_contract.2.1 (Json.obj [("message", .str "bad key")])
     "bad key" rfl,
   c2_validate_status_contract.2.2.2 500 Json.null (by decide) (by decide)
     (by decide)⟩

/-- C3: `Api::track_mod` maps status 200 to the "already tracking" success
wrapping the caller-supplied mod id, 201 to the "newly tracked" success
wrapping the same id, 401 to the decoded `InvalidAPIKey` error, 404 to the
decoded `ModNotFound` error, and every other status to a contract
violation. -/
theorem c3_track_mod_status_contract :
    (∀ (id : Nat) (body : Json),
        Api.track_mod id 200 body = .ok (.AlreadyTracking ⟨id⟩))
    ∧ (∀ (id : Nat) (body : Json),
        Api.track_mod id 201 body = .ok (.SuccessfullyTracked ⟨id⟩))
    ∧ (∀ (id : Nat) (body : Json) (m : String),
        decodeInvalidAPIKeyError body = .ok ⟨m⟩ →
        Api.track_mod id 401 body = .err (.InvalidAPIKey ⟨m⟩))
    ∧ (∀ (id : Nat) (body : Json) (m : String),
        decodeModNotFoundError body = .ok ⟨m⟩ →
        Api.track_mod id 404 body = .err (.ModNotFound ⟨m⟩))
    ∧ (∀ (id s : Nat) (body : Json), s ≠ 200 → s ≠ 201 → s ≠ 401 → s ≠ 404 →
        Api.track_mod id s body = .panicUnreachable) := by
  refine ⟨fun id body => ?_, fun id body => ?_, fun id body m h => ?_,
          fun id body m h => ?_, fun id s body h1 h2 h3 h4 => ?_⟩
  · simp [Api.track_mod]
  · simp [Api.track_mod]
  · simp [Api.track_mod, h]
  · simp [Api.track_mod, h]
  · simp [Api.track_mod, h1, h2, h3, h4]

/-- Witness for `c3_track_mod_status_contract`: the statuses 200, 201, 401,
404 and 503 on concrete inputs with mod id 77. -/
theorem c3_track_mod_status_contract_witness :
    Api.track_mod 77 200 Json.null = .ok (.AlreadyTracking ⟨77⟩)
    ∧ Api.track_mod 77 201 Json.null = .ok (.SuccessfullyTracked ⟨77⟩)
    ∧ Api.track_mod 77 401 (Json.obj [("message", .str "bad key")])
        = .err (.InvalidAPIKey ⟨"bad key"⟩)
    ∧ Api.track_mod 77 404 (Json.obj [("message", .str "no such mod")])
        = .err (.ModNotFound ⟨"no such mod"⟩)
    ∧ Api.track_mod 77 503 Json.null = .panicUnreachable :=
  ⟨c3_track_mod_status_contract.1 77 Json.null,
   c3_track_mod_status_contract.2.1 77 Json.null,
   c3_track_mod_status_contract.2.2.1 77 _ "bad key" rfl,
   c3_track_mod_status_contract.2.2.2.1 77 _ "no such mod" rfl,
   c3_track_mod_status_contract.2.2.2.2 77 503 Json.null (by decide) (by decide)
     (by decide) (by decide)⟩

/-- The status contract shared by the four GET operations of the games and
mod-file families, proved once over an arbitrary success-body decoder. -/
theorem gamesFamilyMatch_contract (d : Json → Except String α) :
    (∀ (body : Json) (v : α), d body = .ok v →
        gamesFamilyMatch d 200 body = .ok v)
    ∧ (∀ (body : Json) (m : String), decodeInvalidAPIKeyError body = .ok ⟨m⟩ →
        gamesFamilyMatch d 404 body = .err (.InvalidAPIKey ⟨m⟩))
    ∧ (∀ body : Json, gamesFamilyMatch d 422 body = .panicUnimplemented)
    ∧ (∀ (s : Nat) (body : Json), s ≠ 200 → s ≠ 404 → s ≠ 422 →
        gamesFamilyMatch d s body = .panicUnreachable) := by
  refine ⟨fun body v h => ?_, fun body m h => ?_, fun body => ?_,
          fun s body h1 h2 h3 => ?_⟩
  · simp [gamesFamilyMatch, h]
  · simp [gamesFamilyMatch, h]
  · simp [gamesFamilyMatch]
  · simp [gamesFamilyMatch, h1, h2, h3]

/-- C8: on each of `Api::games`, `Api::game`, `Api::mod_files` and
`Api::mod_file`, status 200 decodes the success body, status 404 decodes the
INVALID-API-KEY error body shape and surfaces as the `InvalidAPIKey` variant
(not a not-found error), and every status outside the documented set
(200, 404, 422) is a contract violation. -/
theorem c8_games_family_status_contract :
    ((∀ (b : Json) (v : List GameId), decodeList decodeGameId b = .ok v →
        Api.games 200 b = .ok v)
      ∧ (∀ (b : Json) (v : GameId), decodeGameId b = .ok v →
          Api.game 200 b = .ok v)
      ∧ (∀ (b : Json) (v : ModFiles), decodeModFiles b = .ok v →
          Api.mod_files 200 b = .ok v)
      ∧ (∀ (b : Json) (v : ModFile), decodeModFile b = .ok v →
          Api.mod_file 200 b = .ok v))
    ∧ (∀ (b : Json) (m : String), decodeInvalidAPIKeyError b = .ok ⟨m⟩ →
        Api.games 404 b = .err (.InvalidAPIKey ⟨m⟩)
        ∧ Api.game 404 b = .err (.InvalidAPIKey ⟨m⟩)
        ∧ Api.mod_files 404 b = .err (.InvalidAPIKey ⟨m⟩)
        ∧ Api.mod_file 404 b = .err (.InvalidAPIKey ⟨m⟩))
    ∧ (∀ (s : Nat) (b : Json), s ≠ 200 → s ≠ 404 → s ≠ 422 →
        Api.games s b = .panicUnreachable
        ∧ Api.game s b = .panicUnreachable
        ∧ Api.mod_files s b = .panicUnreachable
        ∧ Api.mod_file s b = .panicUnreachable) := by
  refine ⟨⟨fun b v h => ?_, fun b v h => ?_, fun b v h => ?_, fun b v h => ?_⟩,
          fun b m h => ?_, fun s b h1 h2 h3 => ?_⟩
  · exact (gamesFamilyMatch_contract _).1 b v h
  · exact (gamesFamilyMatch_contract _).1 b v h
  · exact (gamesFamilyMatch_contract _).1 b v h
  · exact (gamesFamilyMatch_contract _).1 b v h
  · exact ⟨(gamesFamilyMatch_contract _).2.1 b m h,
           (gamesFamilyMatch_contract _).2.1 b m h,
           (gamesFamilyMatch_contract _).2.1 b m h,
           (gamesFamilyMatch_contract _).2.1 b m h⟩
  · exact ⟨(gamesFamilyMatch_contract _).2.2.2 s b h1 h2 h3,
           (gamesFamilyMatch_contract _).2.2.2 s b h1 h2 h3,
           (gamesFamilyMatch_contract _).2.2.2 s b h1 h2 h3,
           (gamesFamilyMatch_contract _).2.2.2 s b h1 h2 h3⟩

/-- Witness for `c8_games_family_status_contract`: concrete 200 responses for
each of the four operations, a concrete 404 message body, and status 500. -/
theorem c8_games_family_status_contract_witness :
    Api.games 200 (Json.arr [gameBody]) = .ok [gameValue]
    ∧ Api.game 200 gameBody = .ok gameValue
    ∧ Api.mod_files 200 (Json.obj [("files", .arr [modFileBody]), ("file_updates", .arr [])])
        = .ok ⟨[modFileValue], []⟩
    ∧ Api.mod_file 200 modFileBody = .ok modFileValue
    ∧ Api.games 404 (Json.obj [("message", .str "please provide a valid API key")])
        = .err (.InvalidAPIKey ⟨"please provide a valid API key"⟩)
    ∧ Api.games 500 Json.null = .panicUnreachable :=
  ⟨c8_games_family_status_contract.1.1 (Json.arr [gameBody]) [gameValue] rfl,
   c8_games_family_status_contract.1.2.1 gameBody gameValue rfl,
   c8_games_family_status_contract.1.2.2.1 _ ⟨[modFileValue], []⟩ rfl,
   c8_games_family_status_contract.1.2.2.2 modFileBody modFileValue rfl,
   (c8_games_family_status_contract.2.1
      (Json.obj [("message", .str "please provide a valid API key")])
      "please provide a valid API key" rfl).1,
   (c8_games_family_status_contract.2.2 500 Json.null (by decide) (by decide)
      (by decide)).1⟩

/-- Key lemma for the grouping loop: after folding `insertEntry` over a list
of entries, the value at domain `d` is the original value when no entry has
domain `d`, and otherwise the original value (defaulting to `[]`) extended by
the ids of the entries with domain `d`, in their original order. -/
theorem foldl_insertEntry_apply (d : String) :
    ∀ (l : List ModEntry) (m : String → Option (List ModId)),
      (l.foldl insertEntry m) d =
        if l.filter (fun e => e.domain_name == d) = [] then m d
        else some ((m d).getD [] ++
          (l.filter (fun e => e.domain_name == d)).map (fun e => e.mod_id)) := by
  intro l
  induction l with
  | nil => intro m; simp
  | cons e rest ih =>
      intro m
      rw [List.foldl_cons, ih (insertEntry m e)]
      by_cases hd : e.domain_name = d
      · subst hd
        have hm : insertEntry m e e.domain_name
            = some ((m e.domain_name).getD [] ++ [e.mod_id]) := by
          simp [insertEntry]
        by_cases hrest : rest.filter (fun x => x.domain_name == e.domain_name) = []
        · simp [List.filter_cons, hrest, hm]
        · simp [List.filter_cons, hrest, hm]
      · have hne : (e.domain_name == d) = false := by
          simp [hd]
        have hm : insertEntry m e d = m d := by
          simp only [insertEntry]
          rw [if_neg (fun h => hd h.symm)]
        simp [List.filter_cons, hne, hm]

/-- C6: the aggregated `TrackedMods` view maps each domain to exactly the
ids of that domain's entries in their original relative order (and to
nothing when the domain has no entry); in particular, from the raw list
`[(5, skyrim), (9, skyrim), (1, fallout4)]` it exposes `skyrim ↦ [5, 9]` and
`fallout4 ↦ [1]`. -/
theorem c6_tracked_mods_grouping :
    (∀ (raw : TrackedModsRaw) (d : String),
      (TrackedMods.fromRaw raw).get_game d =
        if raw.mods.filter (fun e => e.domain_name == d) = [] then none
        else some ((raw.mods.filter (fun e => e.domain_name == d)).map
          (fun e => e.mod_id)))
    ∧ (TrackedMods.fromRaw ⟨[⟨⟨5⟩, "skyrim"⟩, ⟨⟨9⟩, "skyrim"⟩,
          ⟨⟨1⟩, "fallout4"⟩]⟩).get_game "skyrim" = some [⟨5⟩, ⟨9⟩]
    ∧ (TrackedMods.fromRaw ⟨[⟨⟨5⟩, "skyrim"⟩, ⟨⟨9⟩, "skyrim"⟩,
          ⟨⟨1⟩, "fallout4"⟩]⟩).get_game "fallout4" = some [⟨1⟩] := by
  refine ⟨fun raw d => ?_, by decide, by decide⟩
  have h := foldl_insertEntry_apply d raw.mods (fun _ => Option.none)
  simp only [TrackedMods.fromRaw, TrackedMods.get_game] at h ⊢
  rw [h]
  by_cases hf : raw.mods.filter (fun e => e.domain_name == d) = [] <;>
    simp [hf]

/-- Scanning for a kept representative related to `x` can test the predicate
in either argument order when the predicate is symmetric. -/
theorem any_symm (same : α → α → Bool) (hsymm : ∀ a b, same a b = same b a)
    (out : List α) (x : α) :
    out.any (fun h => same h x) = out.any (fun y => same x y) := by
  induction out with
  | nil => rfl
  | cons o os ih => simp [List.any_cons, ih, hsymm o x]

/-- Generalized loop invariant of the dedup loop: folding the step function
from an accumulator `out` appends the first representatives of the elements
not already represented in `out`. -/
theorem dedup_foldl_eq (same : α → α → Bool)
    (hsymm : ∀ a b, same a b = same b a) :
    ∀ (l out : List α),
      l.foldl (dedupStep same) out =
        out ++ firstReps same
          (l.filter (fun y => !(out.any (fun h => same h y)))) := by
  intro l
  induction l with
  | nil => intro out; simp [firstReps]
  | cons x xs ih =>
      intro out
      rw [List.foldl_cons]
      by_cases hx : out.any (fun y => same x y) = true
      · have hstep : dedupStep same out x = out := by
          simp [dedupStep, hx]
        have hcx : (!(out.any (fun h => same h x))) = false := by
          rw [any_symm same hsymm, hx]
          rfl
        rw [hstep, ih out, List.filter_cons, hcx]
        simp
      · have hx' : out.any (fun y => same x y) = false :=
          Bool.eq_false_iff.mpr hx
        have hstep : dedupStep same out x = out ++ [x] := by
          simp [dedupStep, hx']
        have hcx : (!(out.any (fun h => same h x))) = true := by
          rw [any_symm same hsymm, hx']
          rfl
        have hfilter :
            xs.filter (fun y => !((out ++ [x]).any (fun h => same h y)))
              = (xs.filter (fun y => !(out.any (fun h => same h y)))).filter
                  (fun y => !(same x y)) := by
          rw [List.filter_filter]
          apply List.filter_congr
          intro y _
          simp [List.any_append, Bool.and_comm]
        rw [hstep, ih (out ++ [x]), List.filter_cons, hcx, hfilter]
        simp [firstReps, List.append_assoc]

/-- The dedup loop computes the first representative of each class: the
foldl form from the source equals the specification-side recursion. -/
theorem dedupCore_eq_firstReps (same : α → α → Bool)
    (hsymm : ∀ a b, same a b = same b a) (l : List α) :
    dedupCore same l = firstReps same l := by
  have h := dedup_foldl_eq same hsymm l []
  simpa [dedupCore, List.filter_true] using h

/-- C7: for every file list and every caller-supplied equivalence predicate,
`ModFiles::dedup` returns the first representative of each equivalence class
in original order (the specification-side recursion `firstReps`). -/
theorem c7_dedup_first_representatives (mf : ModFiles)
    (same : ModFile → ModFile → Bool)
    (hsymm : ∀ a b, same a b = same b a)
    (_htrans : ∀ a b c, same a b = true → same b c = true → same a c = true) :
    mf.dedup same = firstReps same mf.files :=
  dedupCore_eq_firstReps same hsymm mf.files

/-- Witness for `c7_dedup_first_representatives`: over `[A, B, C]` with the
file-id equivalence (A ≡ C, B unique), dedup returns `[A, B]`. -/
theorem c7_dedup_first_representatives_witness :
    ModFiles.dedup ⟨[fileA, fileB, fileC], []⟩ sameFile = [fileA, fileB]
    ∧ sameFile fileA fileC = true
    ∧ sameFile fileA fileB = false
    ∧ sameFile fileB fileC = false := by
  have hsymm : ∀ a b, sameFile a b = sameFile b a := by
    intro a b
    by_cases h : a.file_id = b.file_id
    · simp [sameFile, h]
    · have h' : ¬b.file_id = a.file_id := fun hba => h hba.symm
      simp [sameFile, h, h']
  have htrans : ∀ a b c, sameFile a b = true → sameFile b c = true →
      sameFile a c = true := by
    intro a b c hab hbc
    simp only [sameFile, beq_iff_eq] at hab hbc ⊢
    exact hab.trans hbc
  have h := c7_dedup_first_representatives ⟨[fileA, fileB, fileC], []⟩
    sameFile hsymm htrans
  refine ⟨?_, by decide, by decide, by decide⟩
  rw [h]
  simp [firstReps, fileA, fileB, fileC, sameFile]

/-- A linear search returns the element at index `i` when the predicate
holds there and at no smaller index. -/
theorem find?_eq_get_of_first (p : α → Bool) :
    ∀ (l : List α) (i : Nat) (h : i < l.length),
      p (l.get ⟨i, h⟩) = true →
      (∀ (j : Nat) (hj : j < i), p (l.get ⟨j, Nat.lt_trans hj h⟩) = false) →
      l.find? p = some (l.get ⟨i, h⟩) := by
  intro l
  induction l with
  | nil => intro i h; exact absurd h (Nat.not_lt_zero i)
  | cons x xs ih =>
      intro i h hp hfirst
      cases i with
      | zero =>
          simp only [List.get] at hp
          simp [List.find?_cons, hp]
      | succ n =>
          have hx : p x = false := hfirst 0 (Nat.succ_pos n)
          simp only [List.get] at hp ⊢
          rw [List.find?_cons, hx]
          exact ih n (Nat.lt_of_succ_lt_succ h) hp
            (fun j hj => hfirst (j + 1) (Nat.succ_lt_succ hj))

/-- C10: tracing the parent of a category returns nothing both when the
parent reference is the "no parent" variant and when the parent id matches no
`category_id` in the game's list (a dangling reference is indistinguishable
from no parent); when the id does occur, it returns the first category in
list order carrying it. -/
theorem c10_trace_parent_category (g : GameId) (c : GameCategory) :
    (c.parent_category = Category.None → g.trace_parent_category c = none)
    ∧ (∀ n : Nat, c.parent_category = Category.Category n →
        ((∀ cat ∈ g.categories, cat.category_id ≠ n) →
          g.trace_parent_category c = none)
        ∧ (∀ (i : Nat) (h : i < g.categories.length),
            (g.categories.get ⟨i, h⟩).category_id = n →
            (∀ (j : Nat) (hj : j < i),
              (g.categories.get ⟨j, Nat.lt_trans hj h⟩).category_id ≠ n) →
            g.trace_parent_category c = some (g.categories.get ⟨i, h⟩))) := by
  refine ⟨fun hnone => ?_, fun n hn => ⟨fun hmiss => ?_, fun i h hi hfirst => ?_⟩⟩
  · simp [GameId.trace_parent_category, hnone]
  · rw [GameId.trace_parent_category, List.find?_eq_none]
    intro cat hcat
    simp [hn]
    exact fun heq => hmiss cat hcat heq.symm
  · rw [GameId.trace_parent_category]
    apply find?_eq_get_of_first _ g.categories i h
    · simp [hn]
      exact hi.symm
    · intro j hj
      simp [hn]
      exact fun heq => hfirst j hj heq.symm

/-- Witness for `c10_trace_parent_category` on the concrete `traceGame`: a
root category with no parent traces to nothing, a dangling parent id traces
to nothing, and a child pointing at id 1 traces to the root category. -/
theorem c10_trace_parent_category_witness :
    traceGame.trace_parent_category ⟨1, "root", Category.None⟩ = none
    ∧ traceGame.trace_parent_category ⟨3, "dangling", Category.Category 7⟩ = none
    ∧ traceGame.trace_parent_category ⟨2, "child", Category.Category 1⟩
        = some ⟨1, "root", Category.None⟩ := by
  refine ⟨(c10_trace_parent_category traceGame _).1 rfl,
          ((c10_trace_parent_category traceGame
            ⟨3, "dangling", Category.Category 7⟩).2 7 rfl).1 (by decide), ?_⟩
  have h := ((c10_trace_parent_category traceGame
      ⟨2, "child", Category.Category 1⟩).2 1 rfl).2 0 (by decide)
    (by decide) (fun j hj => absurd hj (Nat.not_lt_zero j))
  exact h.trans (by decide)

end Cyclone
